import Mathlib

/-!
Shallow embedding of `qiskit_nature/algorithms/initial_points/hf_initial_point.py`
(class `HFInitialPoint`) together with the external collaborator objects it
reads (the `UCC` ansatz and the grouped second-quantized property container).

Python floats carry no arithmetic here (energies are only stored and read
back), so they are modelled by `ℚ`.  A Python attribute that may hold either a
float or `None` is modelled by `Option ℚ`; an attribute that may hold either
an object or `None` by an `Option` of the object's type.  `np.zeros n` is
`List.replicate n (0 : ℚ)`.  Methods are state-passing functions; a method
that may `warnings.warn` additionally returns the list of warning messages it
emitted, and a method that may raise returns an `Option QiskitNatureError`
alongside the post-state (the Python object keeps all mutations performed
before the raise, so the post-state is returned even on error).
-/

/-- One excitation term: a pair of index tuples
(occupied indices removed, virtual indices added). -/
def Excitation : Type := List Int × List Int

instance : DecidableEq Excitation := by
  unfold Excitation
  infer_instance

/-- The `UCC` ansatz collaborator, reduced to what `HFInitialPoint` reads from
it: `ansatz.operators` is only forced for its side effect of materializing the
excitation list, so the model keeps the already-materialized
`ansatz.excitation_list`. -/
structure UCC where
  excitation_list : List Excitation
  deriving DecidableEq

/-- The `ElectronicEnergy` property: `HFInitialPoint` only reads its
`reference_energy` field, a float-or-`None`. -/
structure ElectronicEnergy where
  reference_energy : Option ℚ
  deriving DecidableEq

/-- The `GroupedSecondQuantizedProperty` container, reduced to the single
lookup `HFInitialPoint` performs on it: `get_property(ElectronicEnergy)`,
which returns the matching property or `None`. -/
structure GroupedSecondQuantizedProperty where
  electronic_energy : Option ElectronicEnergy
  deriving DecidableEq

/-- `grouped_property.get_property(ElectronicEnergy)`. -/
def GroupedSecondQuantizedProperty.get_property
    (g : GroupedSecondQuantizedProperty) : Option ElectronicEnergy :=
  g.electronic_energy

/-- `QiskitNatureError`, carrying its message. -/
structure QiskitNatureError where
  message : String
  deriving DecidableEq

/-- The mutable state of an `HFInitialPoint` instance: the attributes set in
`HFInitialPoint.__init__` plus `_grouped_property`.

`_reference_energy` is declared `float` in the source but (line 71) can end up
holding `None`, hence `Option ℚ`; its initial value `0.0` is `some 0`. -/
structure HFInitialPoint where
  m_grouped_property : Option GroupedSecondQuantizedProperty
  m_ansatz : Option UCC
  m_excitation_list : Option (List Excitation)
  m_reference_energy : Option ℚ
  m_parameters : Option (List ℚ)
  deriving DecidableEq

namespace HFInitialPoint

/-- `HFInitialPoint.__init__`.  `_grouped_property`'s initialisation happens
in the base class `InitialPoint.__init__`, whose file is not part of the
sources; modelled from the spec: "a strategy instance starts with no circuit,
no excitation list, no parameters, and energy = 0". -/
def init : HFInitialPoint :=
  { m_grouped_property := none
    m_ansatz := none
    m_excitation_list := none
    m_reference_energy := some 0
    m_parameters := none }

/-- The `grouped_property` setter (lines 61-72).  Returns the post-state and
the warning messages emitted.  Note line 71 reads
`electronic_energy.reference_energy if not None else 0.0`: `not None` is the
constant `True`, so the stored value is always
`electronic_energy.reference_energy`, even when that is `None`. -/
def set_grouped_property (s : HFInitialPoint)
    (grouped_property : GroupedSecondQuantizedProperty) :
    HFInitialPoint × List String :=
  match grouped_property.get_property with
  | none =>
      (s, ["The ElectronicEnergy was not obtained from the grouped_property. "
           ++ "The grouped_property and reference_energy will not be set."])
  | some electronic_energy =>
      ({ s with
          m_reference_energy := electronic_energy.reference_energy
          m_grouped_property := some grouped_property }, [])

/-- The rather intended assignment on line 71, as the spec words it:
"if present, read its reference-energy field, treating a null field as
zero".  Used only to contrast with `set_grouped_property`. -/
def set_grouped_property_spec (s : HFInitialPoint)
    (grouped_property : GroupedSecondQuantizedProperty) :
    HFInitialPoint × List String :=
  match grouped_property.get_property with
  | none =>
      (s, ["The ElectronicEnergy was not obtained from the grouped_property. "
           ++ "The grouped_property and reference_energy will not be set."])
  | some electronic_energy =>
      ({ s with
          m_reference_energy :=
            some (electronic_energy.reference_energy.getD 0)
          m_grouped_property := some grouped_property }, [])

/-- The `ansatz` setter (lines 83-92): forces `ansatz.operators`, clears the
cached parameters, stores the ansatz's excitation list and the ansatz. -/
def set_ansatz (s : HFInitialPoint) (ansatz : UCC) : HFInitialPoint :=
  { s with
      m_parameters := none
      m_excitation_list := some ansatz.excitation_list
      m_ansatz := some ansatz }

/-- The `excitation_list` setter (lines 102-107): clears the cached
parameters and stores the given list. -/
def set_excitation_list (s : HFInitialPoint)
    (excitations : List Excitation) : HFInitialPoint :=
  { s with
      m_parameters := none
      m_excitation_list := some excitations }

/-- `HFInitialPoint._compute` (lines 149-150): `np.zeros(len(excitation_list))`.
Only called with `_excitation_list` non-`None`; on the (unreachable) `None`
case Python's `len(None)` would raise, modelled as leaving parameters
untouched never to be used. -/
def compute_zeros (s : HFInitialPoint) : HFInitialPoint :=
  match s.m_excitation_list with
  | some ex => { s with m_parameters := some (List.replicate ex.length (0 : ℚ)) }
  | none => s

/-- `HFInitialPoint.compute` (lines 115-147).  Applies the optional setter
arguments, then raises `QiskitNatureError` when no excitation list is
available, else fills the parameter cache with zeros.  Returns the post-state
(mutations before the raise are kept), the emitted warnings, and the raised
error if any. -/
def compute (s : HFInitialPoint) (ansatz : Option UCC)
    (grouped_property : Option GroupedSecondQuantizedProperty) :
    HFInitialPoint × List String × Option QiskitNatureError :=
  let (s1, warns) :=
    match grouped_property with
    | some g => s.set_grouped_property g
    | none => (s, [])
  let s2 :=
    match ansatz with
    | some a => s1.set_ansatz a
    | none => s1
  match s2.m_excitation_list with
  | none =>
      (s2, warns, some ⟨"The excitation list has not been set directly or via the ansatz. "
        ++ "Not enough information has been provided to compute the initial point. "
        ++ "Set the ansatz or call compute with it as an argument. "
        ++ "The ansatz is not required if the excitation list has been set directly."⟩)
  | some _ => (s2.compute_zeros, warns, none)

/-- `HFInitialPoint.to_numpy_array` (lines 109-113): computes via `compute()`
when the cache is empty, then returns `_parameters`.  Returns the post-state,
warnings, the propagated error if `compute()` raised (in which case no value
is returned), and the returned array. -/
def to_numpy_array (s : HFInitialPoint) :
    HFInitialPoint × List String × Option QiskitNatureError × Option (List ℚ) :=
  match s.m_parameters with
  | some p => (s, [], none, some p)
  | none =>
      let (s1, warns, err) := s.compute none none
      match err with
      | some e => (s1, warns, some e, none)
      | none => (s1, warns, none, s1.m_parameters)

/-- `HFInitialPoint.get_energy` (lines 152-159). -/
def get_energy (s : HFInitialPoint) : Option ℚ :=
  s.m_reference_energy

end HFInitialPoint

/-- The operations a caller can perform on an `HFInitialPoint` instance,
for stating invariants over arbitrary call sequences. -/
inductive Op where
  | setAnsatz (a : UCC)
  | setExcitationList (ex : List Excitation)
  | setGroupedProperty (g : GroupedSecondQuantizedProperty)
  | computeOp (a : Option UCC) (g : Option GroupedSecondQuantizedProperty)
  | toNumpyArrayOp
  | getEnergyOp
  deriving DecidableEq

/-- The state reached after an operation (warnings, raised errors and return
values are discarded: the Python object keeps all mutations performed before
a raise). -/
def Op.apply (s : HFInitialPoint) : Op → HFInitialPoint
  | setAnsatz a => s.set_ansatz a
  | setExcitationList ex => s.set_excitation_list ex
  | setGroupedProperty g => (s.set_grouped_property g).1
  | computeOp a g => (s.compute a g).1
  | toNumpyArrayOp => s.to_numpy_array.1
  | getEnergyOp => s

/-- `length(ParameterVector) == length(ExcitationList)` whenever both are
defined. -/
def lenInv (s : HFInitialPoint) : Bool :=
  match s.m_parameters, s.m_excitation_list with
  | some p, some ex => p.length == ex.length
  | _, _ => true

/-- `lenInv` sees through `set_grouped_property`: neither the parameter cache
nor the excitation list is touched. -/
theorem lenInv_set_grouped_property (s : HFInitialPoint)
    (g : GroupedSecondQuantizedProperty) :
    lenInv (s.set_grouped_property g).1 = lenInv s := by
  unfold HFInitialPoint.set_grouped_property GroupedSecondQuantizedProperty.get_property
  cases g.electronic_energy <;> rfl

/-- `compute_zeros` establishes `lenInv`: the fresh parameter vector has the
excitation list's length (and on a missing list the state is unchanged). -/
theorem lenInv_compute_zeros (s : HFInitialPoint) (h : lenInv s = true) :
    lenInv s.compute_zeros = true := by
  unfold HFInitialPoint.compute_zeros
  cases hex : s.m_excitation_list with
  | none => exact h
  | some ex => simp [lenInv]

/-- `compute` establishes or preserves `lenInv` from any state. -/
theorem lenInv_compute (s : HFInitialPoint) (a : Option UCC)
    (g : Option GroupedSecondQuantizedProperty) (h : lenInv s = true) :
    lenInv (s.compute a g).1 = true := by
  unfold HFInitialPoint.compute
  cases g with
  | none =>
    cases a with
    | none =>
      cases hex : s.m_excitation_list with
      | none => simp [hex, lenInv, h]
      | some ex =>
        simpa [hex] using lenInv_compute_zeros s h
    | some a0 =>
      simp [HFInitialPoint.set_ansatz, HFInitialPoint.compute_zeros, lenInv]
  | some g0 =>
    cases a with
    | none =>
      cases hex : (s.set_grouped_property g0).1.m_excitation_list with
      | none =>
        simpa [hex, lenInv_set_grouped_property] using
          (lenInv_set_grouped_property s g0).trans h
      | some ex =>
        simpa [hex] using
          lenInv_compute_zeros (s.set_grouped_property g0).1
            ((lenInv_set_grouped_property s g0).trans h)
    | some a0 =>
      simp [HFInitialPoint.set_ansatz, HFInitialPoint.compute_zeros, lenInv]

/-- Every single operation preserves `lenInv`. -/
theorem lenInv_apply (s : HFInitialPoint) (op : Op) (h : lenInv s = true) :
    lenInv (Op.apply s op) = true := by
  cases op with
  | setAnsatz a => simp [Op.apply, HFInitialPoint.set_ansatz, lenInv]
  | setExcitationList ex => simp [Op.apply, HFInitialPoint.set_excitation_list, lenInv]
  | setGroupedProperty g =>
    simp [Op.apply, lenInv_set_grouped_property, h]
  | computeOp a g => exact lenInv_compute s a g h
  | toNumpyArrayOp =>
    unfold Op.apply HFInitialPoint.to_numpy_array
    cases hp : s.m_parameters with
    | some p => simpa [hp] using h
    | none =>
      have hc := lenInv_compute s none none h
      cases he : (s.compute none none).2.2 with
      | none => simpa [hp, he] using hc
      | some e => simpa [hp, he] using hc
  | getEnergyOp => exact h

/-- `lenInv` holds after any finite sequence of operations starting from a
state satisfying it. -/
theorem lenInv_foldl (ops : List Op) (s : HFInitialPoint)
    (h : lenInv s = true) : lenInv (ops.foldl Op.apply s) = true := by
  induction ops generalizing s with
  | nil => exact h
  | cons op rest ih => exact ih _ (lenInv_apply s op h)

/-- C1: for every excitation list of length n that has been set (directly or
via the ansatz), `to_numpy_array()` returns a vector of length n whose
entries are all exactly zero. -/
theorem hf_to_numpy_array_all_zeros (s : HFInitialPoint) (ex : List Excitation) :
    (∃ v, ((s.set_excitation_list ex).to_numpy_array).2.2.2 = some v ∧
        v.length = ex.length ∧ ∀ x ∈ v, x = 0) ∧
    (∃ v, ((s.set_ansatz (UCC.mk ex)).to_numpy_array).2.2.2 = some v ∧
        v.length = ex.length ∧ ∀ x ∈ v, x = 0) := by
  constructor
  · refine ⟨List.replicate ex.length 0, ?_, by simp, by simp⟩
    simp [HFInitialPoint.to_numpy_array, HFInitialPoint.set_excitation_list,
      HFInitialPoint.compute, HFInitialPoint.compute_zeros]
  · refine ⟨List.replicate ex.length 0, ?_, by simp, by simp⟩
    simp [HFInitialPoint.to_numpy_array, HFInitialPoint.set_ansatz,
      HFInitialPoint.compute, HFInitialPoint.compute_zeros]

/-- C2: `compute()` with no arguments on an instance on which neither an
ansatz nor an excitation list was ever set raises `QiskitNatureError`. -/
theorem hf_compute_fresh_raises (s : HFInitialPoint)
    (_hans : s.m_ansatz = none) (hex : s.m_excitation_list = none) :
    ∃ e : QiskitNatureError, (s.compute none none).2.2 = some e := by
  simp [HFInitialPoint.compute, hex]

/-- C2 witness: a freshly constructed instance raises on `compute()`. -/
theorem hf_compute_fresh_raises_witness :
    ∃ e : QiskitNatureError, (HFInitialPoint.init.compute none none).2.2 = some e :=
  hf_compute_fresh_raises HFInitialPoint.init rfl rfl

/-- C3: the claim says a null `reference_energy` field is stored as zero, so
`get_energy()` returns `0.0`.  The code stores the null itself: line 71's
condition `if not None` is the constant `True`, so its `else 0.0` branch is
dead.  At the failing input (a container whose `ElectronicEnergy` has
`reference_energy = None`) the code yields `None` from `get_energy()`, while
the spec-worded assignment (`set_grouped_property_spec`) yields `0`. -/
theorem hf_null_reference_energy_not_zeroed :
    (HFInitialPoint.init.set_grouped_property
        ⟨some ⟨none⟩⟩).1.get_energy = none ∧
    (HFInitialPoint.init.set_grouped_property
        ⟨some ⟨none⟩⟩).1.get_energy ≠ some 0 ∧
    (HFInitialPoint.init.set_grouped_property_spec
        ⟨some ⟨none⟩⟩).1.get_energy = some 0 := by
  refine ⟨rfl, by decide, rfl⟩

/-- C4: a container whose electronic-energy property has a non-null reference
energy E makes `get_energy()` return exactly E, with no transformation. -/
theorem hf_reference_energy_roundtrip (s : HFInitialPoint)
    (g : GroupedSecondQuantizedProperty) (ee : ElectronicEnergy) (E : ℚ)
    (hg : g.get_property = some ee) (hE : ee.reference_energy = some E) :
    (s.set_grouped_property g).1.get_energy = some E := by
  simp [HFInitialPoint.set_grouped_property, hg, HFInitialPoint.get_energy, hE]

/-- C4 witness: the spec scenario `reference_energy = -1.137`. -/
theorem hf_reference_energy_roundtrip_witness :
    (HFInitialPoint.init.set_grouped_property
        ⟨some ⟨some (-1137/1000)⟩⟩).1.get_energy = some (-1137/1000) :=
  hf_reference_energy_roundtrip HFInitialPoint.init
    ⟨some ⟨some (-1137/1000)⟩⟩ ⟨some (-1137/1000)⟩ (-1137/1000) rfl rfl

/-- C5: a container from which no electronic-energy property can be obtained
leaves the whole state (in particular `get_energy()` and the stored container
association) unchanged, does not raise (the setter is a total function), and
emits a warning. -/
theorem hf_missing_property_unchanged (s : HFInitialPoint)
    (g : GroupedSecondQuantizedProperty) (hg : g.get_property = none) :
    (s.set_grouped_property g).1 = s ∧ (s.set_grouped_property g).2 ≠ [] := by
  constructor
  · simp [HFInitialPoint.set_grouped_property, hg]
  · simp [HFInitialPoint.set_grouped_property, hg]

/-- C5 witness: an empty container on a fresh instance. -/
theorem hf_missing_property_unchanged_witness :
    (HFInitialPoint.init.set_grouped_property ⟨none⟩).1 = HFInitialPoint.init ∧
    (HFInitialPoint.init.set_grouped_property ⟨none⟩).2 ≠ [] :=
  hf_missing_property_unchanged HFInitialPoint.init ⟨none⟩ rfl

/-- C6: set an ansatz, compute, then assign a different excitation list of
length m directly: the next `to_numpy_array()` returns a vector of length m
(the new list's length). -/
theorem hf_new_excitation_list_invalidates (s : HFInitialPoint) (a : UCC)
    (ex2 : List Excitation) :
    ∃ v, (((((s.set_ansatz a).compute none none).1).set_excitation_list
          ex2).to_numpy_array).2.2.2 = some v ∧ v.length = ex2.length := by
  refine ⟨List.replicate ex2.length 0, ?_, by simp⟩
  simp [HFInitialPoint.set_ansatz, HFInitialPoint.compute,
    HFInitialPoint.compute_zeros, HFInitialPoint.set_excitation_list,
    HFInitialPoint.to_numpy_array]

/-- C7: after every sequence of operations, whenever both the cached
parameter vector and the excitation list are defined, the vector's length
equals the list's length. -/
theorem hf_length_invariant (ops : List Op) :
    lenInv (ops.foldl Op.apply HFInitialPoint.init) = true :=
  lenInv_foldl ops HFInitialPoint.init rfl

/-- C8: with an excitation list set, two successive `compute()` calls with no
intervening mutation both succeed and produce bit-identical parameter
vectors. -/
theorem hf_compute_idempotent (s : HFInitialPoint) (ex : List Excitation)
    (h : s.m_excitation_list = some ex) :
    (s.compute none none).2.2 = none ∧
    ((s.compute none none).1.compute none none).2.2 = none ∧
    ((s.compute none none).1.compute none none).1.m_parameters =
      (s.compute none none).1.m_parameters ∧
    (s.compute none none).1.m_parameters =
      some (List.replicate ex.length 0) := by
  refine ⟨?_, ?_, ?_, ?_⟩ <;>
    simp [HFInitialPoint.compute, HFInitialPoint.compute_zeros, h]

/-- C8 witness: the spec scenario list `[((0,), (2,)), ((1,), (3,))]`. -/
theorem hf_compute_idempotent_witness :
    ((HFInitialPoint.init.set_excitation_list
        [([0], [2]), ([1], [3])]).compute none none).2.2 = none ∧
    (((HFInitialPoint.init.set_excitation_list
        [([0], [2]), ([1], [3])]).compute none none).1.compute none none).2.2 = none ∧
    ((((HFInitialPoint.init.set_excitation_list
        [([0], [2]), ([1], [3])]).compute none none).1.compute
          none none).1.m_parameters =
      ((HFInitialPoint.init.set_excitation_list
        [([0], [2]), ([1], [3])]).compute none none).1.m_parameters) ∧
    ((HFInitialPoint.init.set_excitation_list
        [([0], [2]), ([1], [3])]).compute none none).1.m_parameters =
      some (List.replicate (List.length
        ([([0], [2]), ([1], [3])] : List Excitation)) 0) :=
  hf_compute_idempotent
    (HFInitialPoint.init.set_excitation_list [([0], [2]), ([1], [3])])
    [([0], [2]), ([1], [3])] rfl

/-- C9: on an instance whose ansatz was previously set, assigning an
excitation list directly clears the cached parameter vector but leaves the
stored ansatz reference and the stored reference energy unchanged. -/
theorem hf_set_excitation_list_frame (s : HFInitialPoint) (a : UCC)
    (ha : s.m_ansatz = some a) (ex : List Excitation) :
    (s.set_excitation_list ex).m_parameters = none ∧
    (s.set_excitation_list ex).m_ansatz = some a ∧
    (s.set_excitation_list ex).m_reference_energy = s.m_reference_energy := by
  refine ⟨rfl, ?_, rfl⟩
  simpa [HFInitialPoint.set_excitation_list] using ha

/-- C9 witness: a fresh instance with an empty-list ansatz set. -/
theorem hf_set_excitation_list_frame_witness :
    ((HFInitialPoint.init.set_ansatz ⟨[]⟩).set_excitation_list
        [([0], [1])]).m_parameters = none ∧
    ((HFInitialPoint.init.set_ansatz ⟨[]⟩).set_excitation_list
        [([0], [1])]).m_ansatz = some ⟨[]⟩ ∧
    ((HFInitialPoint.init.set_ansatz ⟨[]⟩).set_excitation_list
        [([0], [1])]).m_reference_energy =
      (HFInitialPoint.init.set_ansatz ⟨[]⟩).m_reference_energy :=
  hf_set_excitation_list_frame (HFInitialPoint.init.set_ansatz ⟨[]⟩)
    ⟨[]⟩ rfl [([0], [1])]

/-- C10: `compute(ansatz=None, grouped_property=g)` with no excitation list
ever set raises `QiskitNatureError`, but only after `g` has been applied: the
stored reference energy and container association reflect `g` despite the
error. -/
theorem hf_compute_mutates_before_raise (s : HFInitialPoint)
    (g : GroupedSecondQuantizedProperty) (ee : ElectronicEnergy)
    (hex : s.m_excitation_list = none) (hg : g.get_property = some ee) :
    (∃ e : QiskitNatureError, (s.compute none (some g)).2.2 = some e) ∧
    (s.compute none (some g)).1.get_energy = ee.reference_energy ∧
    (s.compute none (some g)).1.m_grouped_property = some g := by
  refine ⟨?_, ?_, ?_⟩ <;>
    simp [HFInitialPoint.compute, HFInitialPoint.set_grouped_property, hg,
      hex, HFInitialPoint.get_energy]

/-- C10 witness: a fresh instance and a container with reference energy 5. -/
theorem hf_compute_mutates_before_raise_witness :
    (∃ e : QiskitNatureError,
      (HFInitialPoint.init.compute none (some ⟨some ⟨some 5⟩⟩)).2.2 = some e) ∧
    (HFInitialPoint.init.compute none (some ⟨some ⟨some 5⟩⟩)).1.get_energy =
      (⟨some 5⟩ : ElectronicEnergy).reference_energy ∧
    (HFInitialPoint.init.compute none
        (some ⟨some ⟨some 5⟩⟩)).1.m_grouped_property = some ⟨some ⟨some 5⟩⟩ :=
  hf_compute_mutates_before_raise HFInitialPoint.init
    ⟨some ⟨some 5⟩⟩ ⟨some 5⟩ rfl rfl
